import Mathlib

/-!
Verification of the structured C-type mesh topology generator of
GMSH-Airfoil-2D (file gmshairfoil2d/geometry_def.py) against its
natural-language specification.

The development shallowly embeds the parts of the code the claims are
about:

* the symbolic block topology built in CType.__init__ (the 11 lines,
  three airfoil splines, the circle arc, the five curve loops, and the
  sequence of setTransfiniteCurve calls);
* the blunt-trailing-edge handling of AirfoilSpline.__init__ (exact
  rational arithmetic, since the source uses only field operations);
* the node-count and ratio formulas of CType.__init__ (real numbers
  with Real.log, since the source formulas are transcendental);
* the out-of-bounds pre-flight check of geometry_def.outofbounds and
  the dispatch structure of gmshairfoil2d.main.

Python error semantics (ZeroDivisionError, ValueError of math.log,
IndexError) are modelled by Option: a None result means the Python code
raises at that point.
-/

namespace GmshAirfoil

/-! ## Symbolic block topology (CType.__init__, lines 961-1167)

Vertices are the eight outer points p0..p7 of the C domain, the two
leading-edge split points (points[k1] and points[k2]) and the trailing
edge.  Curves are the eleven lines L0..L10, the front circle arc and the
three airfoil splines, with the start and end vertices they are created
with in the source. -/

/-- Symbolic vertex of the C-type topology: outer points 0-7, the upper
and lower leading-edge split points, and the trailing edge. -/
inductive Vtx
  | p0 | p1 | p2 | p3 | p4 | p5 | p6 | p7
  | leUpper | leLower | te
  deriving DecidableEq, Repr

/-- Symbolic curve of the C-type topology: the eleven straight lines,
the front circle arc and the three airfoil splines. -/
inductive Crv
  | L0 | L1 | L2 | L3 | L4 | L5 | L6 | L7 | L8 | L9 | L10
  | circleArc | splineFront | upperBack | lowerBack
  deriving DecidableEq, Repr

open Vtx Crv

/-- Start vertex of each curve, as created in CType.__init__
(self.lines, the circle arc, and the three splines). -/
def crvSrc : Crv → Vtx
  | L0 => leUpper
  | L1 => p1
  | L2 => p2
  | L3 => p3
  | L4 => p4
  | L5 => p5
  | L6 => p6
  | L7 => p7
  | L8 => te
  | L9 => te
  | L10 => p4
  | circleArc => p7
  | splineFront => leLower
  | upperBack => leUpper
  | lowerBack => te

/-- End vertex of each curve, as created in CType.__init__. -/
def crvDst : Crv → Vtx
  | L0 => p1
  | L1 => p2
  | L2 => p3
  | L3 => p4
  | L4 => p5
  | L5 => p6
  | L6 => p7
  | L7 => leLower
  | L8 => p2
  | L9 => p6
  | L10 => te
  | circleArc => p1
  | splineFront => leUpper
  | upperBack => te
  | lowerBack => leLower

/-- An oriented edge: a curve with a direction flag (true = forward,
false = the negated tag passed to addCurveLoop). -/
def OEdge : Type := Crv × Bool

/-- Start vertex of an oriented edge. -/
def oSrc (e : OEdge) : Vtx := if e.2 then crvSrc e.1 else crvDst e.1

/-- End vertex of an oriented edge. -/
def oDst (e : OEdge) : Vtx := if e.2 then crvDst e.1 else crvSrc e.1

/-- Curve loop of block A: addCurveLoop([L7, spline_front, L0, -circle_arc]). -/
def loopA : List OEdge := [(L7, true), (splineFront, true), (L0, true), (circleArc, false)]

/-- Curve loop of block B: addCurveLoop([L0, L1, -L8, -upper_spline_back]). -/
def loopB : List OEdge := [(L0, true), (L1, true), (L8, false), (upperBack, false)]

/-- Curve loop of block C: addCurveLoop([L8, L2, L3, L10]). -/
def loopC : List OEdge := [(L8, true), (L2, true), (L3, true), (L10, true)]

/-- Curve loop of block D: addCurveLoop([-L9, -L10, L4, L5]). -/
def loopD : List OEdge := [(L9, false), (L10, false), (L4, true), (L5, true)]

/-- Curve loop of block E: addCurveLoop([L7, -lower_spline_back, L9, L6]). -/
def loopE : List OEdge := [(L7, true), (lowerBack, false), (L9, true), (L6, true)]

/-- The five curve loops of surfaces A-E, in source order. -/
def loops : List (List OEdge) := [loopA, loopB, loopC, loopD, loopE]

/-- A list of oriented edges is a closed chain: each edge ends where the
next one starts, and the last edge ends where the first one starts. -/
def closedChain (l : List OEdge) : Bool :=
  match l with
  | [] => true
  | e0 :: _ =>
    (List.zip l (l.drop 1 ++ [e0])).all fun (a, b) => oDst a == oSrc b

/-- Number of loops among A-E that use a given curve (in either
orientation). -/
def loopsUsing (c : Crv) : Nat :=
  (loops.filter fun l => l.any fun e => e.1 == c).length

/-- A curve is a shared edge when two of the five blocks use it. -/
def sharedEdge (c : Crv) : Bool := decide (2 ≤ loopsUsing c)

/-- Orientations with which a curve appears across all five loops. -/
def orientationsOf (c : Crv) : List Bool :=
  (loops.flatMap fun l => l.filter fun e => e.1 == c).map Prod.snd

/-! ## Transfinite discretization calls (CType.__init__, lines 1060-1126)

Every setTransfiniteCurve call made by the constructor, in source
order.  The node counts (nb_points_y, nb_points_wake, nb_airfoil,
nb_airfoil_front) and progression/bump coefficients are computed once
before the calls, so they are represented symbolically; the three
data-dependent branch choices (the mesh-size regime of the front bump,
and the pt1x / pt7x distance regimes for L1 and L6) are parameters. -/

/-- Symbolic node count, one per count computed by the constructor. -/
inductive NodeCnt
  | nbY | nbWake | nbAirfoil | nbFront
  deriving DecidableEq, Repr

/-- Symbolic progression or bump coefficient used by a transfinite call. -/
inductive Coef
  | ratioY | ratioYInv | wakeProg | wakeProgInv
  | ratioAirfoil | ratioAirfoilInv | ratioAirfoilSqrt | ratioAirfoilSqrtInv
  | arcBump | frontBump12 | frontBump7
  deriving DecidableEq, Repr

/-- Spacing law of a transfinite call; defaultLaw is the call made with
no explicit law argument (the L1 / L6 fallback branches). -/
inductive MeshLaw
  | progression (c : Coef)
  | bump (c : Coef)
  | defaultLaw
  deriving DecidableEq, Repr

open NodeCnt Coef MeshLaw

/-- The sequence of setTransfiniteCurve calls of CType.__init__ in
source order.  regimeFine is the branch condition mesh_size_end < 0.04
of the front-spline bump; s1 selects among the three pt1x branches for
L1 and s6 among the three pt7x branches for L6 (0: far, 1: middle,
2: close, i.e. the else branch with no explicit law). -/
def transfiniteCalls (regimeFine : Bool) (s1 s6 : Fin 3) :
    List (Crv × NodeCnt × MeshLaw) :=
  [(L7, nbY, progression ratioYInv),
   (splineFront, nbFront, bump (if regimeFine then frontBump12 else frontBump7)),
   (L0, nbY, progression ratioY),
   (circleArc, nbFront, bump arcBump),
   (L8, nbY, progression ratioY),
   (upperBack, nbAirfoil, progression ratioAirfoil),
   (L1, nbAirfoil,
     if s1 = 0 then progression ratioAirfoilInv
     else if s1 = 1 then progression ratioAirfoilSqrtInv
     else defaultLaw),
   (L2, nbWake, progression wakeProgInv),
   (L3, nbY, progression ratioYInv),
   (L10, nbWake, progression wakeProg),
   (L9, nbY, progression ratioY),
   (L4, nbY, progression ratioY),
   (L5, nbWake, progression wakeProg),
   (lowerBack, nbAirfoil, progression ratioAirfoilInv),
   (L6, nbAirfoil,
     if s6 = 0 then progression ratioAirfoil
     else if s6 = 1 then progression ratioAirfoilSqrt
     else defaultLaw)]

/-- The calls that target a given curve. -/
def callsFor (calls : List (Crv × NodeCnt × MeshLaw)) (c : Crv) :
    List (Crv × NodeCnt × MeshLaw) :=
  calls.filter fun t => t.1 == c

/-- All fifteen curves of the topology. -/
def allCrv : List Crv :=
  [L0, L1, L2, L3, L4, L5, L6, L7, L8, L9, L10,
   circleArc, splineFront, upperBack, lowerBack]

/-- The discretization a block sees on a curve: the first (hence, when
calls are unique, the only) transfinite setting registered for that
curve, provided the block's loop actually uses the curve.  This models
the gmsh lookup, which is keyed on the curve tag. -/
def seenFrom (calls : List (Crv × NodeCnt × MeshLaw)) (blk : List OEdge)
    (c : Crv) : Option (NodeCnt × MeshLaw) :=
  if blk.any fun e => e.1 == c then (callsFor calls c).head?.map Prod.snd
  else none

/-- Checker for the shared-edge discretization invariant: every shared
edge receives exactly one setTransfiniteCurve call, and every block
whose loop uses the edge sees that one registered setting. -/
def sharedConsistent (calls : List (Crv × NodeCnt × MeshLaw)) : Bool :=
  (allCrv.filter sharedEdge).all fun c =>
    ((callsFor calls c).length == 1) &&
      ((loops.filter fun l => l.any fun e => e.1 == c).all fun b =>
        (seenFrom calls b c == (callsFor calls c).head?.map Prod.snd) &&
          (seenFrom calls b c).isSome)

/-! ## Blunt trailing-edge handling (AirfoilSpline.__init__, lines 609-693)

The constructor fragment that detects a two-point (blunt) trailing edge
and possibly inserts a synthetic trailing point.  The source uses only
field operations, so the embedding is exact rational arithmetic.
Python list indexing (one negative wrap, IndexError otherwise) is
modelled by pyGet; a None result of teInsert means the Python code
raises. -/

/-- A 2D contour point (the z coordinate of the source is always 0 and
the mesh size does not enter this computation). -/
structure Pt where
  x : ℚ
  y : ℚ
  deriving DecidableEq, Repr

/-- Python list indexing: a negative index wraps once from the end;
anything still out of range is an IndexError (None). -/
def pyGet (l : List Pt) (i : ℤ) : Option Pt :=
  let j := if i < 0 then i + l.length else i
  if 0 ≤ j then l.get? j.toNat else none

/-- Index scan of Python max(points, key=attrgetter(x)): keeps the
first element attaining the maximum (replacement only on strictly
greater). -/
def firstMaxGo (bi : ℕ) (bx : ℚ) (i : ℕ) : List Pt → ℕ
  | [] => bi
  | q :: qs => if bx < q.x then firstMaxGo i q.x (i + 1) qs else firstMaxGo bi bx (i + 1) qs

/-- Index of the first maximum-x point (None on the empty list, where
Python max raises). -/
def firstMaxIdx : List Pt → Option ℕ
  | [] => none
  | p :: ps => some (firstMaxGo 0 p.x 1 ps)

/-- The insertion step of the blunt-trailing-edge branch (lines
643-693): extrapolate the last segment on each side, intersect, and
insert the synthetic point, do nothing, or clamp, following the three
branches of the source. -/
def teProcess (P : List Pt) (te : Pt) (teIdx up down : ℤ) :
    Option (List Pt × Pt × ℤ) := do
  let pUp ← pyGet P up
  let pDown ← pyGet P down
  let pUpPrev ← pyGet P (up - 1)
  let pDownNext ← pyGet P (down + 1)
  let x := pUp.x
  let y := pUp.y
  let z := pDown.x
  let w := pDown.y
  let a := x - pUpPrev.x
  let b := y - pUpPrev.y
  let c := z - pDownNext.x
  let d := w - pDownNext.y
  let mu : ℚ := if b * c - a * d ≠ 0 then (b * (x - z) + a * (w - y)) / (b * c - a * d)
    else 10000000
  let xi := z + mu * c
  if xi ≤ te.x + 1 / 10 ∧ xi > te.x then
    let np : Pt := ⟨xi, w + mu * d⟩
    some (P.insertIdx down.toNat np, np, down)
  else if xi > te.x - 1 / 1000 ∧ xi ≤ te.x then
    some (P, te, teIdx)
  else
    let px := (x + z) / 2
    let py := (y + w) / 2
    let e := (a + c) / 2
    let f := (b + d) / 2
    if e = 0 then none
    else
      let lambd := (te.x + 1 / 20 - px) / e
      let np : Pt := ⟨te.x + 1 / 20, py + lambd * f⟩
      some (P.insertIdx down.toNat np, np, down)

/-- The whole trailing-edge fragment of AirfoilSpline.__init__: locate
the trailing edge, detect a blunt (two-point, vertical) trailing edge,
and run the insertion step when one is found.  Returns the final point
list, trailing-edge marker and its index. -/
def teInsert (P : List Pt) : Option (List Pt × Pt × ℤ) := do
  let teIdx0 ← firstMaxIdx P
  let te ← P.get? teIdx0
  let teIdx : ℤ := teIdx0
  let prev ← pyGet P (teIdx - 1)
  if prev.x > te.x - 1 / 10000 then
    teProcess P te teIdx (teIdx - 1) teIdx
  else
    match pyGet P (teIdx + 1) with
    | none => none
    | some nxt =>
      if nxt.x > te.x - 1 / 10000 then
        teProcess P te teIdx teIdx (teIdx + 1)
      else
        some (P, te, teIdx)

/-- The concrete blunt-trailing-edge contour of the counterexample: the
two trailing points sit at x = 1, y = plus and minus 1/500, and the two
segments feeding them extrapolate to a meeting point at x = 2499/2500,
just behind the trailing edge. -/
def c5pts : List Pt :=
  [⟨0, 0⟩, ⟨1 / 2, 1 / 20⟩, ⟨999 / 1000, -3 / 1000⟩, ⟨1, 1 / 500⟩,
   ⟨1, -1 / 500⟩, ⟨999 / 1000, 3 / 1000⟩, ⟨1 / 2, -1 / 20⟩]

/-! ## Node-count and ratio formulas (CType.__init__, lines 1013-1058)

The sizing formulas use math.log and math.sqrt, so they are embedded
over the real numbers.  A None result models a Python exception:
ZeroDivisionError on division by zero, ValueError on math.log of a
non-positive argument.  Python int() truncates toward zero, which
pyInt mirrors. -/

/-- Python int() on a float: truncation toward zero. -/
noncomputable def pyInt (x : ℝ) : ℤ := if 0 ≤ x then ⌊x⌋ else ⌈x⌉

open Classical in
/-- The wall-normal node-count formula of line 1019 as a function of
the total span, the first layer height and the growth ratio:
3 + int(log(1 + total/first*(ratio-1)) / log(ratio)).  None models the
ValueError of math.log on a non-positive argument and the
ZeroDivisionError when first = 0 or log(ratio) = 0 (ratio = 1). -/
noncomputable def seriesTermCount (total first ratio : ℝ) : Option ℤ :=
  if first = 0 then none
  else if 1 + total / first * (ratio - 1) ≤ 0 then none
  else if ratio ≤ 0 then none
  else if Real.log ratio = 0 then none
  else some (3 + pyInt (Real.log (1 + total / first * (ratio - 1)) / Real.log ratio))

/-- nb_points_y of line 1019: the wall-normal count with total span
dy/2, first term the first-layer height, and the growth ratio. -/
noncomputable def nbPointsY (dy height ratio : ℝ) : Option ℤ :=
  seriesTermCount (dy / 2) height ratio

open Classical in
/-- nb_points_wake of lines 1029-1030:
int(log(1 + dx_trail*0.025/mesh_size_end) / log(1.025)) + 1. -/
noncomputable def nbPointsWake (dxTrail mse : ℝ) : Option ℤ :=
  if mse = 0 then none
  else if 1 + dxTrail * 0.025 / mse ≤ 0 then none
  else some (pyInt (Real.log (1 + dxTrail * 0.025 / mse) / Real.log 1.025) + 1)

open Classical in
/-- The airfoil-surface ratio and node-count computation of lines
1040-1046, as a function of the first term a, the last term b and the
length l: ratio_airfoil = (l-a)/(l-b) is computed unconditionally
(ZeroDivisionError when l = b), then the node count is 3 when l-b < 0
and max(3, int(log(b/a)/log(ratio_airfoil))+2) otherwise. -/
noncomputable def ratioNbAirfoil (a b l : ℝ) : Option (ℝ × ℤ) :=
  if l - b = 0 then none
  else
    let r := (l - a) / (l - b)
    if l - b < 0 then some (r, 3)
    else if a = 0 then none
    else if b / a ≤ 0 then none
    else if r ≤ 0 then none
    else if Real.log r = 0 then none
    else some (r, max 3 (pyInt (Real.log (b / a) / Real.log r) + 2))

/-- mesh_size_end of line 887: the constructor doubles the
user-supplied airfoil mesh size before all sizing computations. -/
noncomputable def meshSizeEnd (meshSize : ℝ) : ℝ := meshSize * 2

open Classical in
/-- coeffdiv of lines 1034-1039: the regime coefficient dividing the
first term of the airfoil-surface series. -/
noncomputable def coeffdiv (mse : ℝ) : ℝ :=
  if mse > 0.05 then 4 else if mse ≥ 0.03 then 3 else 2

/-- The (first term, last term, length) triple a, b, l of line 1040
handed to the airfoil-surface series computation:
a = mesh_size_end/coeffdiv, b = mesh_size_end, l = te.x. -/
noncomputable def ctypeAirfoilParams (meshSize teX : ℝ) : ℝ × ℝ × ℝ :=
  (meshSizeEnd meshSize / coeffdiv (meshSizeEnd meshSize), meshSizeEnd meshSize, teX)

/-- The discretization (ratio and node count) of the upper-back and
lower-back airfoil arcs: ratioNbAirfoil applied to the a, b, l of
line 1040. -/
noncomputable def ctypeAirfoilDiscr (meshSize teX : ℝ) : Option (ℝ × ℤ) :=
  ratioNbAirfoil (ctypeAirfoilParams meshSize teX).1
    (ctypeAirfoilParams meshSize teX).2.1 (ctypeAirfoilParams meshSize teX).2.2

open Classical in
/-- nb_airfoil_front of lines 1057-1058 as a function of the estimated
front-arc length: max(4, int(estim/mesh_size_end*coeffdiv*3)) + 4. -/
noncomputable def nbAirfoilFront (estim mse coeff : ℝ) : Option ℤ :=
  if mse = 0 then none
  else some (max 4 (pyInt (estim / mse * coeff * 3)) + 4)

/-! ## Inlet boundary points (CType.__init__, lines 932-957)

Points 1 and 7 are placed by shooting a ray from each leading-edge
split point, in the direction normal to the chord of its two
neighbours, onto the horizontal lines y = dy/2 and y = -dy/2; the
resulting x-coordinate is then clamped to
[le.x - 3.5, le.x - 0.05*dy].  The source divides by the y-component
of the rotated normal with no degeneracy check. -/

/-- x-component of a vector rotated by the angle of attack. -/
noncomputable def rotX (aoa x y : ℝ) : ℝ := Real.cos aoa * x - Real.sin aoa * y

/-- y-component of a vector rotated by the angle of attack. -/
noncomputable def rotY (aoa x y : ℝ) : ℝ := Real.sin aoa * x + Real.cos aoa * y

open Classical in
/-- One inlet point x-coordinate (lines 951-957): from the rotated
split point (xk, yk) along the rotated direction (dirx, diry) to the
horizontal line y = targetY, then clamped into
[leX - 3.5, leX - 0.05*dy].  None models the ZeroDivisionError when
the rotated y-component of the direction is zero: the source has no
fallback for that case. -/
noncomputable def inletPointX (aoa dirx diry xk yk targetY leX dy : ℝ) : Option ℝ :=
  if rotY aoa dirx diry = 0 then none
  else some (max (min (rotX aoa xk yk + (targetY - rotY aoa xk yk) / rotY aoa dirx diry
    * rotX aoa dirx diry) (leX - 0.05 * dy)) (leX - 3.5))

/-- Both inlet points (lines 934-957): the upper direction is the
normal (yupbefore - yupafter, xupafter - xupbefore) of the chord of the
neighbours of points[k1], the lower direction is
(ydownafter - ydownbefore, xdownbefore - xdownafter) for points[k2];
target lines y = dy/2 and y = -(dy/2). -/
noncomputable def inletPoints (aoa dy leX xupb yupb xupa yupa xup yup
    xdnb ydnb xdna ydna xdn ydn : ℝ) : Option (ℝ × ℝ) := do
  let p1 ← inletPointX aoa (yupb - yupa) (xupa - xupb) xup yup (dy / 2) leX dy
  let p7 ← inletPointX aoa (ydna - ydnb) (xdnb - xdna) xdn ydn (-(dy / 2)) leX dy
  some (p1, p7)

/-! ## Out-of-bounds check and the main dispatch
(geometry_def.outofbounds, lines 830-869, and gmshairfoil2d.main,
lines 386-500)

outofbounds prints a message and calls sys.exit() when the airfoil plus
boundary-layer thickness does not fit the farfield; main invokes it
only on the unstructured branch, after the airfoil points have already
been created in the meshing kernel. -/

/-- Outcome of a Python code path: normal return, or a sys.exit call
terminating the process. -/
inductive PyOutcome
  | ok
  | exitProc
  deriving DecidableEq, Repr

/-- Python max over a list (first element as the seed; the empty case,
where Python raises, defaults to 0 and is never used by the claims). -/
noncomputable def maxD : List ℝ → ℝ
  | [] => 0
  | a :: t => t.foldl max a

/-- Python min over a list, same convention as maxD. -/
noncomputable def minD : List ℝ → ℝ
  | [] => 0
  | a :: t => t.foldl min a

open Classical in
/-- geometry_def.outofbounds: box branch (lines 844-859) when a box is
given, circle branch (lines 860-869) otherwise.  Returns exitProc when
the airfoil or boundary layer does not fit, modelling sys.exit(). -/
noncomputable def outofbounds (pts : List (ℝ × ℝ)) (box : Option (ℝ × ℝ))
    (radius blthick : ℝ) : PyOutcome :=
  match box with
  | some (len, wid) =>
    if |maxD (pts.map Prod.fst) - 0.5| + |blthick| > len / 2 ∨
        |minD (pts.map Prod.fst) - 0.5| + |blthick| > len / 2 ∨
        |maxD (pts.map Prod.snd)| + |blthick| > wid / 2 ∨
        |minD (pts.map Prod.snd)| + |blthick| > wid / 2 then
      PyOutcome.exitProc
    else PyOutcome.ok
  | none =>
    if Real.sqrt (maxD (pts.map fun p =>
        (p.1 - 0.5) * (p.1 - 0.5) + p.2 * p.2)) + |blthick| > radius then
      PyOutcome.exitProc
    else PyOutcome.ok

/-- The steps of gmshairfoil2d.main relevant to bounds checking, in
source order (lines 386-500): the kernel is initialized and the airfoil
points are created in it first; then the structured branch builds the
CType mesh directly, while the unstructured branch generates the skin,
runs the outofbounds check, and builds the outer domain and surface. -/
inductive MainStep
  | initializeKernel
  | buildAirfoilSpline
  | rotateAirfoil
  | buildCType
  | genSkin
  | checkOutOfBounds
  | buildExtDomain
  | buildPlaneSurface
  | buildBoundaryLayer
  | defineBC
  | generateMesh
  deriving DecidableEq, Repr

/-- The sequence of steps main executes, depending on the structured
flag (gmshairfoil2d.main, lines 386-500). -/
def mainSteps (structured : Bool) : List MainStep :=
  [MainStep.initializeKernel, MainStep.buildAirfoilSpline, MainStep.rotateAirfoil] ++
    (if structured then [MainStep.buildCType, MainStep.defineBC]
     else [MainStep.genSkin, MainStep.checkOutOfBounds, MainStep.buildExtDomain,
       MainStep.buildPlaneSurface, MainStep.buildBoundaryLayer, MainStep.defineBC]) ++
    [MainStep.generateMesh]

/-! ## Helper lemmas -/

/-- A successful non-negative Python index is a valid list position. -/
lemma pyGet_toNat_lt {P : List Pt} {i : ℤ} {p : Pt}
    (hi : 0 ≤ i) (h : pyGet P i = some p) : i.toNat < P.length := by
  simp only [pyGet] at h
  rw [if_neg (not_lt.mpr hi), if_pos hi] at h
  exact (List.get?_eq_some.mp h).1

/-- Case analysis on the insertion step: either nothing changes, or
exactly one point is inserted whose x-coordinate lies in
(te.x, te.x + 1/10], and the new trailing-edge marker is that point. -/
lemma teProcess_spec {P : List Pt} {te : Pt} {teIdx up down : ℤ}
    {Q : List Pt} {t : Pt} {i : ℤ}
    (hd : 0 ≤ down) (h : teProcess P te teIdx up down = some (Q, t, i)) :
    (Q = P ∧ t = te) ∨
    (∃ k : ℕ, k ≤ P.length ∧ Q = P.insertIdx k t ∧
      te.x < t.x ∧ t.x ≤ te.x + 1 / 10) := by
  simp only [teProcess, Option.pure_def, Option.bind_eq_bind, Option.bind_eq_some] at h
  obtain ⟨pUp, hUp, pDown, hDown, pUpPrev, hUpPrev, pDownNext, hDownNext, h⟩ := h
  have hlen : down.toNat ≤ P.length := le_of_lt (pyGet_toNat_lt hd hDown)
  split_ifs at h with h1 h2 h3 h4 h5 h6 h7
  · simp only [Option.some.injEq, Prod.mk.injEq] at h
    obtain ⟨hQ, ht, hi⟩ := h
    subst hQ; subst ht
    exact Or.inr ⟨down.toNat, hlen, rfl, h2.2, h2.1⟩
  · simp only [Option.some.injEq, Prod.mk.injEq] at h
    obtain ⟨hQ, ht, hi⟩ := h
    subst hQ; subst ht
    exact Or.inl ⟨rfl, rfl⟩
  · simp only [Option.some.injEq, Prod.mk.injEq] at h
    obtain ⟨hQ, ht, hi⟩ := h
    subst hQ; subst ht
    refine Or.inr ⟨down.toNat, hlen, rfl, ?_, ?_⟩
    · show te.x < te.x + 1 / 20
      linarith
    · show te.x + 1 / 20 ≤ te.x + 1 / 10
      linarith
  · simp only [Option.some.injEq, Prod.mk.injEq] at h
    obtain ⟨hQ, ht, hi⟩ := h
    subst hQ; subst ht
    exact Or.inr ⟨down.toNat, hlen, rfl, h5.2, h5.1⟩
  · simp only [Option.some.injEq, Prod.mk.injEq] at h
    obtain ⟨hQ, ht, hi⟩ := h
    subst hQ; subst ht
    exact Or.inl ⟨rfl, rfl⟩
  · simp only [Option.some.injEq, Prod.mk.injEq] at h
    obtain ⟨hQ, ht, hi⟩ := h
    subst hQ; subst ht
    refine Or.inr ⟨down.toNat, hlen, rfl, ?_, ?_⟩
    · show te.x < te.x + 1 / 20
      linarith
    · show te.x + 1 / 20 ≤ te.x + 1 / 10
      linarith

/-! ## Claim C1: shared-edge transfinite discretization set exactly once -/

/-- C1: for every branch valuation of CType.__init__, every edge shared
between two of the five blocks receives exactly one setTransfiniteCurve
call, and every block whose loop uses the edge references that single
registered setting, so the discretization seen from both adjoining
blocks is identical. -/
theorem c1_shared_edge_set_once :
    ∀ (rf : Bool) (s1 s6 : Fin 3),
      sharedConsistent (transfiniteCalls rf s1 s6) = true := by
  decide

/-! ## Claim C2: curve loops closed, shared-edge orientation -/

/-- C2 counterexample: all five loops are closed, and L0 is an edge
shared by exactly two blocks (A and B), yet it appears with the same
(forward) orientation in both loops, contradicting the claim that every
shared edge appears with opposite orientation in its two loops. -/
theorem c2_loop_orientation_counterexample :
    loops.all closedChain = true ∧
    sharedEdge Crv.L0 = true ∧ loopsUsing Crv.L0 = 2 ∧
    orientationsOf Crv.L0 = [true, true] := by
  decide

/-- C2 amended: each of the five curve loops A-E is a closed 4-edge
loop; the shared edges are exactly L0, L7, L8, L9, L10, each used by
exactly two loops; L8, L9 and L10 appear with opposite orientation in
their two loops, while L0 (shared by A and B) and L7 (shared by A and
E) appear with the same orientation in both, since the loop of block A
is wound oppositely to the other four. -/
theorem c2_loops_amended :
    loops.all closedChain = true ∧
    loops.all (fun l => l.length == 4) = true ∧
    allCrv.filter sharedEdge = [Crv.L0, Crv.L7, Crv.L8, Crv.L9, Crv.L10] ∧
    (allCrv.filter sharedEdge).all (fun c => loopsUsing c == 2) = true ∧
    orientationsOf Crv.L8 = [false, true] ∧
    orientationsOf Crv.L9 = [false, true] ∧
    orientationsOf Crv.L10 = [true, false] ∧
    orientationsOf Crv.L0 = [true, true] ∧
    orientationsOf Crv.L7 = [true, true] := by
  decide

/-! ## Claim C5: blunt trailing-edge insertion -/

/-- C5 counterexample: a contour whose trailing edge is blunt (the
point after the maximum-x point is within 1/10000 of it in x), on which
AirfoilSpline.__init__ inserts no synthetic point at all: the
extrapolated meeting point falls at x = 2499/2500, inside the
(te.x - 1/1000, te.x] window of the do-nothing branch, so the point
list and the trailing-edge marker are returned unchanged. -/
theorem c5_blunt_te_counterexample :
    teInsert c5pts = some (c5pts, ⟨1, 1 / 500⟩, 3) ∧
    pyGet c5pts 4 = some ⟨1, -1 / 500⟩ ∧
    ((1 : ℚ) > 1 - 1 / 10000) ∧ c5pts.length = 7 := by
  refine ⟨?_, ?_, by norm_num, by norm_num [c5pts]⟩
  · norm_num [teInsert, teProcess, pyGet, firstMaxIdx, firstMaxGo, c5pts,
      List.get?, Option.bind, Int.toNat, Pt.mk.injEq]
  · norm_num [pyGet, c5pts, List.get?, Int.toNat]

/-- C5 amended: whenever the trailing-edge fragment of
AirfoilSpline.__init__ returns normally, either the point list and
trailing-edge marker are unchanged (the do-nothing branch, or no blunt
trailing edge detected), or exactly one synthetic point is inserted,
its x-coordinate lies strictly above the original maximum x and at most
1/10 beyond it, and the trailing-edge marker is updated to it. -/
theorem c5_blunt_te_amended (P Q : List Pt) (t t0 : Pt) (i : ℤ) (i0 : ℕ)
    (h0 : firstMaxIdx P = some i0) (ht0 : P.get? i0 = some t0)
    (h : teInsert P = some (Q, t, i)) :
    (Q = P ∧ t = t0) ∨
    (∃ k : ℕ, k ≤ P.length ∧ Q = P.insertIdx k t ∧
      t0.x < t.x ∧ t.x ≤ t0.x + 1 / 10) := by
  simp only [teInsert, Option.pure_def, Option.bind_eq_bind, Option.bind_eq_some] at h
  obtain ⟨j0, hj0, te, hte, prev, hprev, h⟩ := h
  rw [h0] at hj0
  obtain rfl : i0 = j0 := by injection hj0
  rw [ht0] at hte
  obtain rfl : t0 = te := by injection hte
  split_ifs at h with hb1
  · exact teProcess_spec (by positivity) h
  · rcases hne : pyGet P ((i0 : ℤ) + 1) with _ | nxt <;> rw [hne] at h <;>
      dsimp only at h
    · simp at h
    · split_ifs at h with hb2
      · exact teProcess_spec (by positivity) h
      · simp only [Option.some.injEq, Prod.mk.injEq] at h
        exact Or.inl ⟨h.1.symm, h.2.1.symm⟩

/-- C5 amended, witness at the concrete contour c5pts. -/
theorem c5_blunt_te_amended_witness :
    (c5pts = c5pts ∧ (⟨1, 1 / 500⟩ : Pt) = ⟨1, 1 / 500⟩) ∨
    (∃ k : ℕ, k ≤ c5pts.length ∧ c5pts = c5pts.insertIdx k ⟨1, 1 / 500⟩ ∧
      (⟨1, 1 / 500⟩ : Pt).x < (⟨1, 1 / 500⟩ : Pt).x ∧
      (⟨1, 1 / 500⟩ : Pt).x ≤ (⟨1, 1 / 500⟩ : Pt).x + 1 / 10) :=
  c5_blunt_te_amended c5pts c5pts ⟨1, 1 / 500⟩ ⟨1, 1 / 500⟩ 3 3
    (by norm_num [firstMaxIdx, firstMaxGo, c5pts])
    (by norm_num [c5pts, List.get?])
    (by norm_num [teInsert, teProcess, pyGet, firstMaxIdx, firstMaxGo, c5pts,
      List.get?, Option.bind, Int.toNat, Pt.mk.injEq])

/-- Under the physical hypotheses (non-negative span, positive first
term, ratio above 1) the wall-normal count formula evaluates to
3 plus the floor of a non-negative quotient. -/
lemma seriesTermCount_eval {total first ratio : ℝ}
    (ht : 0 ≤ total) (hf : 0 < first) (hr : 1 < ratio) :
    seriesTermCount total first ratio =
      some (3 + ⌊Real.log (1 + total / first * (ratio - 1)) / Real.log ratio⌋) ∧
    0 ≤ Real.log (1 + total / first * (ratio - 1)) / Real.log ratio := by
  have hprod : 0 ≤ total / first * (ratio - 1) :=
    mul_nonneg (div_nonneg ht hf.le) (by linarith)
  have harg : (1 : ℝ) ≤ 1 + total / first * (ratio - 1) := by linarith
  have hlogr : 0 < Real.log ratio := Real.log_pos hr
  have hq : 0 ≤ Real.log (1 + total / first * (ratio - 1)) / Real.log ratio :=
    div_nonneg (Real.log_nonneg harg) hlogr.le
  refine ⟨?_, hq⟩
  unfold seriesTermCount pyInt
  rw [if_neg hf.ne', if_neg (not_le.mpr (by linarith)),
    if_neg (not_le.mpr (by linarith)), if_neg hlogr.ne', if_pos hq]

/-! ## Claim C6: totality at ratio = 1 -/

/-- C6 counterexample: at ratio = 1 the wall-normal node-count formula
does not return total/first_term; log(ratio) is zero and the division
raises ZeroDivisionError (modelled as None), here at total = 5,
first term = 1. -/
theorem c6_ratio_one_counterexample :
    seriesTermCount 5 1 1 = none ∧ (5 : ℝ) / 1 = 5 := by
  constructor
  · unfold seriesTermCount
    rw [if_neg one_ne_zero, if_neg (by norm_num), if_neg (by norm_num),
      if_pos Real.log_one]
  · norm_num

/-- C6 amended: the wall-normal node-count formula is not total at
ratio = 1: there log(ratio) = 0 and the computation divides by zero
(raises, modelled as None); for every ratio above 1 it is defined. -/
theorem c6_ratio_one_amended (total first : ℝ) (ht : 0 ≤ total) (hf : 0 < first) :
    seriesTermCount total first 1 = none ∧
    ∀ ratio : ℝ, 1 < ratio → ∃ n : ℤ, seriesTermCount total first ratio = some n := by
  constructor
  · unfold seriesTermCount
    rw [if_neg hf.ne', if_neg (by norm_num), if_neg (by norm_num),
      if_pos Real.log_one]
  · intro ratio hr
    exact ⟨_, (seriesTermCount_eval ht hf hr).1⟩

/-- C6 amended, witness at total = 5, first term = 1. -/
theorem c6_ratio_one_amended_witness :
    seriesTermCount 5 1 1 = none ∧
    ∀ ratio : ℝ, 1 < ratio → ∃ n : ℤ, seriesTermCount 5 1 ratio = some n :=
  c6_ratio_one_amended 5 1 (by norm_num) (by norm_num)

/-! ## Claim C7: monotonicity and lower bound of the series count -/

/-- C7: for a fixed positive first term and fixed ratio above 1, the
node count computed by the wall-normal series formula is defined,
non-decreasing in the total span, and always at least 3. -/
theorem c7_series_monotone (t1 t2 first ratio : ℝ)
    (h0 : 0 ≤ t1) (h12 : t1 ≤ t2) (hf : 0 < first) (hr : 1 < ratio) :
    ∃ n1 n2 : ℤ, seriesTermCount t1 first ratio = some n1 ∧
      seriesTermCount t2 first ratio = some n2 ∧
      n1 ≤ n2 ∧ 3 ≤ n1 ∧ 3 ≤ n2 := by
  obtain ⟨he1, hq1⟩ := seriesTermCount_eval h0 hf hr
  obtain ⟨he2, hq2⟩ := seriesTermCount_eval (le_trans h0 h12) hf hr
  refine ⟨_, _, he1, he2, ?_, ?_, ?_⟩
  · have hlogr : 0 < Real.log ratio := Real.log_pos hr
    have harg1 : (0 : ℝ) < 1 + t1 / first * (ratio - 1) := by
      have : 0 ≤ t1 / first * (ratio - 1) :=
        mul_nonneg (div_nonneg h0 hf.le) (by linarith)
      linarith
    have hmono : 1 + t1 / first * (ratio - 1) ≤ 1 + t2 / first * (ratio - 1) := by
      have hdiv : t1 / first ≤ t2 / first := by gcongr
      nlinarith
    have harg2 : (0 : ℝ) < 1 + t2 / first * (ratio - 1) := lt_of_lt_of_le harg1 hmono
    have hlog : Real.log (1 + t1 / first * (ratio - 1)) ≤
        Real.log (1 + t2 / first * (ratio - 1)) :=
      (Real.log_le_log_iff harg1 harg2).mpr hmono
    have hq : Real.log (1 + t1 / first * (ratio - 1)) / Real.log ratio ≤
        Real.log (1 + t2 / first * (ratio - 1)) / Real.log ratio :=
      (div_le_div_iff_of_pos_right hlogr).mpr hlog
    exact add_le_add_left (Int.floor_le_floor hq) 3
  · have := Int.floor_nonneg.mpr hq1
    omega
  · have := Int.floor_nonneg.mpr hq2
    omega

/-- C7 witness at spans 1 and 2, first term 1, ratio 2. -/
theorem c7_series_monotone_witness :
    ∃ n1 n2 : ℤ, seriesTermCount 1 1 2 = some n1 ∧
      seriesTermCount 2 1 2 = some n2 ∧
      n1 ≤ n2 ∧ 3 ≤ n1 ∧ 3 ≤ n2 :=
  c7_series_monotone 1 2 1 2 (by norm_num) (by norm_num) (by norm_num) (by norm_num)

/-- Evaluation of the airfoil-surface computation when the length falls
short of the last term: the ratio is still computed (as a division by a
negative number) and the node count falls back to 3. -/
lemma ratioNbAirfoil_eval_of_lt {a b l : ℝ} (hl : l < b) :
    ratioNbAirfoil a b l = some ((l - a) / (l - b), 3) := by
  unfold ratioNbAirfoil
  rw [if_neg (by intro h; nlinarith : ¬ l - b = 0)]
  dsimp only
  rw [if_pos (by linarith : l - b < 0)]

/-- Evaluation of the airfoil-surface computation in the regular regime
0 < a < b < l: the ratio is (l-a)/(l-b), above 1, and the node count is
max 3 (int(log(b/a)/log(ratio)) + 2). -/
lemma ratioNbAirfoil_eval_of_gt {a b l : ℝ} (ha : 0 < a) (hab : a < b) (hbl : b < l) :
    ratioNbAirfoil a b l =
      some ((l - a) / (l - b),
        max 3 (pyInt (Real.log (b / a) / Real.log ((l - a) / (l - b))) + 2)) ∧
    1 < (l - a) / (l - b) := by
  have hlb : 0 < l - b := by linarith
  have hr1 : 1 < (l - a) / (l - b) := (one_lt_div hlb).mpr (by linarith)
  refine ⟨?_, hr1⟩
  unfold ratioNbAirfoil
  rw [if_neg hlb.ne']
  dsimp only
  rw [if_neg (not_lt.mpr hlb.le), if_neg ha.ne',
    if_neg (not_le.mpr (div_pos (by linarith) ha)),
    if_neg (not_le.mpr (lt_trans zero_lt_one hr1)),
    if_neg (Real.log_pos hr1).ne']

/-- The regime coefficient is always at least 2 (and positive). -/
lemma two_le_coeffdiv (x : ℝ) : 2 ≤ coeffdiv x := by
  unfold coeffdiv
  split_ifs <;> norm_num

/-! ## Claim C4: node-count floors -/

/-- C4 counterexample: at dx_trail = 1/100 and user mesh size 1 (so
mesh_size_end = 2), the wake node count evaluates to 1, below the
claimed floor of 3: the wake count has no floor in the code. -/
theorem c4_node_counts_counterexample :
    nbPointsWake (1 / 100) (meshSizeEnd 1) = some 1 ∧ ¬ (3 : ℤ) ≤ 1 := by
  refine ⟨?_, by norm_num⟩
  have hmse : meshSizeEnd 1 = 2 := by norm_num [meshSizeEnd]
  rw [hmse]
  unfold nbPointsWake
  rw [if_neg (by norm_num), if_neg (by norm_num)]
  have harg : (1 : ℝ) + 1 / 100 * 0.025 / 2 = 1.000125 := by norm_num
  rw [harg]
  have hq0 : (0 : ℝ) ≤ Real.log 1.000125 / Real.log 1.025 :=
    div_nonneg (Real.log_nonneg (by norm_num)) (Real.log_pos (by norm_num)).le
  have hq1 : Real.log 1.000125 / Real.log 1.025 < 1 :=
    (div_lt_one (Real.log_pos (by norm_num))).mpr
      (Real.log_lt_log (by norm_num) (by norm_num))
  have hfl : pyInt (Real.log 1.000125 / Real.log 1.025) = 0 := by
    unfold pyInt
    rw [if_pos hq0]
    exact Int.floor_eq_zero_iff.mpr ⟨hq0, hq1⟩
  rw [hfl]
  norm_num

/-- C4 amended: with positive sizing inputs and growth ratio above 1,
the wall-normal count is at least 3, the airfoil-surface count is at
least 3, the front-arc count is at least 8, but the wake count is only
guaranteed to be at least 1 (it has no floor of 3). -/
theorem c4_node_counts_amended (dy height ratio dxTrail m estim teX : ℝ)
    (hdy : 0 ≤ dy) (hh : 0 < height) (hr : 1 < ratio) (hdx : 0 ≤ dxTrail)
    (hm : 0 < m) (hne : teX ≠ meshSizeEnd m) :
    (∃ n : ℤ, nbPointsY dy height ratio = some n ∧ 3 ≤ n) ∧
    (∃ rn : ℝ × ℤ, ctypeAirfoilDiscr m teX = some rn ∧ 3 ≤ rn.2) ∧
    (∃ n : ℤ, nbAirfoilFront estim (meshSizeEnd m) (coeffdiv (meshSizeEnd m)) =
      some n ∧ 8 ≤ n) ∧
    (∃ n : ℤ, nbPointsWake dxTrail (meshSizeEnd m) = some n ∧ 1 ≤ n) := by
  have hmse : meshSizeEnd m = m * 2 := rfl
  have hmse0 : (0 : ℝ) < meshSizeEnd m := by rw [hmse]; linarith
  refine ⟨?_, ?_, ?_, ?_⟩
  · obtain ⟨he, hq⟩ := seriesTermCount_eval (by linarith : (0:ℝ) ≤ dy / 2) hh hr
    refine ⟨_, he, ?_⟩
    have := Int.floor_nonneg.mpr hq
    omega
  · have hc2 : 2 ≤ coeffdiv (meshSizeEnd m) := two_le_coeffdiv _
    have hc0 : (0 : ℝ) < coeffdiv (meshSizeEnd m) := by linarith
    have ha0 : 0 < meshSizeEnd m / coeffdiv (meshSizeEnd m) := by positivity
    have hab : meshSizeEnd m / coeffdiv (meshSizeEnd m) < meshSizeEnd m := by
      rw [div_lt_iff₀ hc0]
      nlinarith
    rcases lt_or_gt_of_ne hne with hlt | hgt
    · refine ⟨_, ratioNbAirfoil_eval_of_lt hlt, le_refl 3⟩
    · obtain ⟨he, -⟩ := ratioNbAirfoil_eval_of_gt ha0 hab hgt
      exact ⟨_, he, le_max_left 3 _⟩
  · unfold nbAirfoilFront
    rw [if_neg hmse0.ne']
    refine ⟨_, rfl, ?_⟩
    have := le_max_left 4 (pyInt (estim / meshSizeEnd m * coeffdiv (meshSizeEnd m) * 3))
    omega
  · unfold nbPointsWake
    have harg : (1 : ℝ) ≤ 1 + dxTrail * 0.025 / meshSizeEnd m := by
      have : 0 ≤ dxTrail * 0.025 / meshSizeEnd m := by positivity
      linarith
    rw [if_neg hmse0.ne', if_neg (not_le.mpr (by linarith))]
    refine ⟨_, rfl, ?_⟩
    have hq : 0 ≤ Real.log (1 + dxTrail * 0.025 / meshSizeEnd m) / Real.log 1.025 :=
      div_nonneg (Real.log_nonneg harg) (Real.log_pos (by norm_num)).le
    have hfl : 0 ≤ pyInt (Real.log (1 + dxTrail * 0.025 / meshSizeEnd m) / Real.log 1.025) := by
      unfold pyInt
      rw [if_pos hq]
      exact Int.floor_nonneg.mpr hq
    omega

/-- C4 amended, witness at dy = 1, height = 1, ratio = 2,
dx_trail = 1, user mesh size 1/100, estimated front length 1,
te.x = 1. -/
theorem c4_node_counts_amended_witness :
    (∃ n : ℤ, nbPointsY 1 1 2 = some n ∧ 3 ≤ n) ∧
    (∃ rn : ℝ × ℤ, ctypeAirfoilDiscr (1 / 100) 1 = some rn ∧ 3 ≤ rn.2) ∧
    (∃ n : ℤ, nbAirfoilFront 1 (meshSizeEnd (1 / 100)) (coeffdiv (meshSizeEnd (1 / 100))) =
      some n ∧ 8 ≤ n) ∧
    (∃ n : ℤ, nbPointsWake 1 (meshSizeEnd (1 / 100)) = some n ∧ 1 ≤ n) :=
  c4_node_counts_amended 1 1 2 1 (1 / 100) 1 1 (by norm_num) (by norm_num)
    (by norm_num) (by norm_num) (by norm_num) (by norm_num [meshSizeEnd])

/-! ## Claim C8: airfoil-surface ratio degeneracy -/

/-- C8 counterexample: at first term 1/4, last term 1 and length 1
(length equal to the last term) the computation divides by zero
(None, a ZeroDivisionError), instead of falling back to node count 3;
and at length 1/2 (below the last term) the node count does fall back
to 3 but a negative ratio -1/2 is still produced. -/
theorem c8_ratio_degenerate_counterexample :
    ratioNbAirfoil (1 / 4) 1 1 = none ∧
    ratioNbAirfoil (1 / 4) 1 (1 / 2) = some (-(1 / 2 : ℝ), 3) ∧
    (-(1 / 2 : ℝ)) < 0 := by
  refine ⟨?_, ?_, by norm_num⟩
  · unfold ratioNbAirfoil
    rw [if_pos (by norm_num)]
  · rw [ratioNbAirfoil_eval_of_lt (by norm_num)]
    norm_num

/-- C8 amended: the ratio (length - first)/(length - last) is computed
unconditionally.  When last_term < length the result is exactly the
claimed ratio with node count max 3 (int(log(b/a)/log(ratio)) + 2), and
the ratio is above 1; when length < last_term the node count falls back
to 3 but the ratio is still produced and is negative whenever
first_term < length; when length = last_term the computation raises
ZeroDivisionError instead of returning the sentinel. -/
theorem c8_ratio_degenerate_amended (a b l : ℝ) (ha : 0 < a) (hab : a < b) :
    (l = b → ratioNbAirfoil a b l = none) ∧
    (l < b → ratioNbAirfoil a b l = some ((l - a) / (l - b), 3)) ∧
    (l < b → a < l → (l - a) / (l - b) < 0) ∧
    (b < l → ratioNbAirfoil a b l =
      some ((l - a) / (l - b),
        max 3 (pyInt (Real.log (b / a) / Real.log ((l - a) / (l - b))) + 2)) ∧
      1 < (l - a) / (l - b)) := by
  refine ⟨?_, fun h => ratioNbAirfoil_eval_of_lt h, ?_,
    fun h => ratioNbAirfoil_eval_of_gt ha hab h⟩
  · intro h
    unfold ratioNbAirfoil
    rw [if_pos (by rw [h, sub_self])]
  · intro h hal
    exact div_neg_of_pos_of_neg (by linarith) (by linarith)

/-- C8 amended, witness at first term 1, last term 2, length 4. -/
theorem c8_ratio_degenerate_amended_witness :
    ((4 : ℝ) = 2 → ratioNbAirfoil 1 2 4 = none) ∧
    ((4 : ℝ) < 2 → ratioNbAirfoil 1 2 4 = some (((4 : ℝ) - 1) / ((4 : ℝ) - 2), 3)) ∧
    ((4 : ℝ) < 2 → (1 : ℝ) < 4 → ((4 : ℝ) - 1) / ((4 : ℝ) - 2) < 0) ∧
    ((2 : ℝ) < 4 → ratioNbAirfoil 1 2 4 =
      some (((4 : ℝ) - 1) / ((4 : ℝ) - 2),
        max 3 (pyInt (Real.log ((2 : ℝ) / 1) / Real.log (((4 : ℝ) - 1) / ((4 : ℝ) - 2))) + 2)) ∧
      1 < ((4 : ℝ) - 1) / ((4 : ℝ) - 2)) :=
  c8_ratio_degenerate_amended 1 2 4 (by norm_num) (by norm_num)

/-! ## Claim C10: airfoil-surface first and last terms -/

/-- C10 counterexample: with user-supplied airfoil mesh size 1/100, the
last term handed to the airfoil-surface series computation is 1/50
(twice the user size), not the user size itself. -/
theorem c10_last_term_counterexample :
    (ctypeAirfoilParams (1 / 100) 1).2.1 = 1 / 50 ∧ ((1 : ℝ) / 50) ≠ 1 / 100 := by
  constructor <;> norm_num [ctypeAirfoilParams, meshSizeEnd]

/-- C10 amended: the series computation for the upper-back and
lower-back arcs receives last term mesh_size_end = 2 x the
user-supplied airfoil mesh size (never the user size itself) and first
term mesh_size_end / coeffdiv; the first term is at most the
user-supplied size since the regime coefficient is at least 2. -/
theorem c10_last_term_amended (m teX : ℝ) (hm : 0 < m) :
    ctypeAirfoilDiscr m teX =
      ratioNbAirfoil (meshSizeEnd m / coeffdiv (meshSizeEnd m)) (meshSizeEnd m) teX ∧
    (ctypeAirfoilParams m teX).2.1 = 2 * m ∧
    (ctypeAirfoilParams m teX).1 = 2 * m / coeffdiv (2 * m) ∧
    (ctypeAirfoilParams m teX).2.1 ≠ m ∧
    (ctypeAirfoilParams m teX).1 ≤ m := by
  have hc2 : 2 ≤ coeffdiv (meshSizeEnd m) := two_le_coeffdiv _
  have hc0 : (0 : ℝ) < coeffdiv (meshSizeEnd m) := by linarith
  have hm2 : meshSizeEnd m = 2 * m := by rw [meshSizeEnd, mul_comm]
  refine ⟨rfl, ?_, ?_, ?_, ?_⟩
  · show meshSizeEnd m = 2 * m
    exact hm2
  · show meshSizeEnd m / coeffdiv (meshSizeEnd m) = 2 * m / coeffdiv (2 * m)
    rw [hm2]
  · show meshSizeEnd m ≠ m
    rw [hm2]
    intro hcontra
    linarith
  · show meshSizeEnd m / coeffdiv (meshSizeEnd m) ≤ m
    rw [hm2] at hc2 hc0 ⊢
    rw [div_le_iff₀ hc0]
    nlinarith

/-- C10 amended, witness at user mesh size 1/100 and te.x = 1. -/
theorem c10_last_term_amended_witness :
    ctypeAirfoilDiscr (1 / 100) 1 =
      ratioNbAirfoil (meshSizeEnd (1 / 100) / coeffdiv (meshSizeEnd (1 / 100)))
        (meshSizeEnd (1 / 100)) 1 ∧
    (ctypeAirfoilParams (1 / 100) 1).2.1 = 2 * (1 / 100) ∧
    (ctypeAirfoilParams (1 / 100) 1).1 = 2 * (1 / 100) / coeffdiv (2 * (1 / 100)) ∧
    (ctypeAirfoilParams (1 / 100) 1).2.1 ≠ 1 / 100 ∧
    (ctypeAirfoilParams (1 / 100) 1).1 ≤ 1 / 100 :=
  c10_last_term_amended (1 / 100) 1 (by norm_num)

/-! ## Claim C9: inlet boundary point construction -/

/-- C9 counterexample: a contour configuration at zero angle of attack
where the two neighbours of the upper split point share the same
x-coordinate (1/25), so the y-component of the normal direction is
zero: the construction raises ZeroDivisionError (None), with no
fallback point substituted. -/
theorem c9_inlet_counterexample :
    inletPoints 0 10 0 (1 / 25) (1 / 20) (1 / 25) (1 / 100) (1 / 25) (3 / 100)
      (1 / 25) (-(1 / 20)) (1 / 25) (-(1 / 100)) (1 / 25) (-(3 / 100)) = none := by
  have h : rotY 0 ((1 : ℝ) / 20 - 1 / 100) ((1 : ℝ) / 25 - 1 / 25) = 0 := by
    simp [rotY]
  unfold inletPoints inletPointX
  rw [if_pos h]
  rfl

/-- C9 amended: the inlet point construction is total exactly when the
rotated normal directions have nonzero y-components; in that case both
clamped inlet x-coordinates land in [le.x - 3.5, le.x - 0.05*dy]
(provided the clamp interval is non-empty, 0.05*dy at most 3.5); when a
y-component is zero the code raises ZeroDivisionError with no
fallback. -/
theorem c9_inlet_amended (aoa dy leX xupb yupb xupa yupa xup yup
    xdnb ydnb xdna ydna xdn ydn : ℝ)
    (h1 : rotY aoa (yupb - yupa) (xupa - xupb) ≠ 0)
    (h7 : rotY aoa (ydna - ydnb) (xdnb - xdna) ≠ 0)
    (hdy : 0.05 * dy ≤ 3.5) :
    ∃ p1 p7 : ℝ,
      inletPoints aoa dy leX xupb yupb xupa yupa xup yup
        xdnb ydnb xdna ydna xdn ydn = some (p1, p7) ∧
      leX - 3.5 ≤ p1 ∧ p1 ≤ leX - 0.05 * dy ∧
      leX - 3.5 ≤ p7 ∧ p7 ≤ leX - 0.05 * dy := by
  unfold inletPoints inletPointX
  rw [if_neg h1, if_neg h7]
  refine ⟨_, _, rfl, le_max_right _ _, ?_, le_max_right _ _, ?_⟩ <;>
    exact max_le (min_le_right _ _) (by linarith)

/-- C9 amended, witness at zero angle of attack with non-degenerate
neighbour chords. -/
theorem c9_inlet_amended_witness :
    ∃ p1 p7 : ℝ,
      inletPoints 0 10 0 (1 / 25) (1 / 20) (1 / 20) (1 / 100) (1 / 25) (3 / 100)
        (1 / 25) (-(1 / 20)) (1 / 20) (-(1 / 100)) (1 / 25) (-(3 / 100)) =
        some (p1, p7) ∧
      (0 : ℝ) - 3.5 ≤ p1 ∧ p1 ≤ (0 : ℝ) - 0.05 * 10 ∧
      (0 : ℝ) - 3.5 ≤ p7 ∧ p7 ≤ (0 : ℝ) - 0.05 * 10 :=
  c9_inlet_amended 0 10 0 (1 / 25) (1 / 20) (1 / 20) (1 / 100) (1 / 25) (3 / 100)
    (1 / 25) (-(1 / 20)) (1 / 20) (-(1 / 100)) (1 / 25) (-(3 / 100))
    (by simp [rotY]; norm_num) (by simp [rotY]; norm_num) (by norm_num)

/-! ## Claim C3: out-of-bounds handling -/

/-- C3 counterexample: the structured branch of main performs no
out-of-bounds check at all (while building the CType mesh through
kernel calls), the airfoil points are created in the kernel even on the
unstructured branch before the check runs, and when the check does run
and fails, for a farfield radius 2/5 smaller than chord/2 plus
boundary-layer thickness 1/5, it terminates the process via sys.exit
(exitProc), not a normal error return. -/
theorem c3_bounds_counterexample :
    (MainStep.checkOutOfBounds ∉ mainSteps true) ∧
    MainStep.buildCType ∈ mainSteps true ∧
    MainStep.buildAirfoilSpline ∈ mainSteps false ∧
    outofbounds [((0 : ℝ), (0 : ℝ)), (1 / 2, 1 / 10), (1, 0)] none (2 / 5) (1 / 5) =
      PyOutcome.exitProc := by
  refine ⟨by decide, by decide, by decide, ?_⟩
  have hmax : maxD ([((0 : ℝ), (0 : ℝ)), (1 / 2, 1 / 10), (1, 0)].map fun p =>
      (p.1 - 0.5) * (p.1 - 0.5) + p.2 * p.2) = 1 / 4 := by
    show List.foldl max _ _ = 1 / 4
    norm_num [List.foldl, max_def]
  have hsq : Real.sqrt (1 / 4) = 1 / 2 := by
    rw [show (1 / 4 : ℝ) = (1 / 2) ^ 2 by norm_num, Real.sqrt_sq (by norm_num)]
  unfold outofbounds
  rw [hmax, hsq, if_pos (by rw [abs_of_nonneg (by norm_num : (0:ℝ) ≤ 1/5)]; norm_num)]

/-- C3 amended: main runs the out-of-bounds check only on the
unstructured branch; the structured branch builds the CType mesh with
no check; and whenever the circle-farfield condition is violated the
check terminates the process (sys.exit), not a normal error return. -/
theorem c3_bounds_amended (pts : List (ℝ × ℝ)) (radius bl : ℝ)
    (h : radius < Real.sqrt (maxD (pts.map fun p =>
      (p.1 - 0.5) * (p.1 - 0.5) + p.2 * p.2)) + |bl|) :
    (MainStep.checkOutOfBounds ∉ mainSteps true) ∧
    MainStep.buildCType ∈ mainSteps true ∧
    MainStep.checkOutOfBounds ∈ mainSteps false ∧
    outofbounds pts none radius bl = PyOutcome.exitProc := by
  refine ⟨by decide, by decide, by decide, ?_⟩
  unfold outofbounds
  rw [if_pos h]

/-- C3 amended, witness at a two-point chord with farfield radius 1/10
and no boundary layer. -/
theorem c3_bounds_amended_witness :
    (MainStep.checkOutOfBounds ∉ mainSteps true) ∧
    MainStep.buildCType ∈ mainSteps true ∧
    MainStep.checkOutOfBounds ∈ mainSteps false ∧
    outofbounds [((0 : ℝ), (0 : ℝ)), (1, 0)] none (1 / 10) 0 = PyOutcome.exitProc :=
  c3_bounds_amended [((0 : ℝ), (0 : ℝ)), (1, 0)] (1 / 10) 0 (by
    have hmax : maxD ([((0 : ℝ), (0 : ℝ)), (1, 0)].map fun p =>
        (p.1 - 0.5) * (p.1 - 0.5) + p.2 * p.2) = 1 / 4 := by
      show List.foldl max _ _ = 1 / 4
      norm_num [List.foldl, max_def]
    rw [hmax, show (1 / 4 : ℝ) = (1 / 2) ^ 2 by norm_num,
      Real.sqrt_sq (by norm_num : (0:ℝ) ≤ 1/2)]
    norm_num)

end GmshAirfoil

